import Mathlib

/-!
Shallow embedding of the DiskBench shell-extension command object
(guypritchard/ben-che).  The repository holds two near-duplicate copies of
the extension:

* `src/DiskBench.ShellExtension.Cpp/` — embedded below in namespace
  `DiskBenchExt`;
* `src/DiskBench/DiskBench.ShellExtension.Cpp/` — embedded in namespace
  `DiskBenchCopy`.

Win32/COM calls that reach outside the component (shell item access, the
registry, module-path lookup, `CreateProcess`, memory allocation) are
modelled as explicit inputs; output pointer parameters are modelled as
returned values.  Diagnostic logging (`OutputDebugString` / `LogMessage`)
has no effect on any result and is dropped.
-/

/-- The subset of HRESULT values the sources produce.  `SUCCEEDED(hr)` is
true exactly for the non-negative values `S_OK` and `S_FALSE`. -/
inductive HResult where
  | S_OK
  | S_FALSE
  | E_POINTER
  | E_NOINTERFACE
  | E_FAIL
  | E_INVALIDARG
  | E_OUTOFMEMORY
  | E_NOTIMPL
  | CLASS_E_NOAGGREGATION
  deriving DecidableEq, Repr

/-- The `SUCCEEDED` macro: true on the two non-negative codes used here. -/
def HResult.succeeded : HResult → Bool
  | .S_OK => true
  | .S_FALSE => true
  | _ => false

/-- The `FAILED` macro. -/
def HResult.failed (h : HResult) : Bool := !h.succeeded

/-- An `IShellItem` as the code observes it: `GetDisplayName(SIGDN_FILESYSPATH)`
either succeeds with a non-null string or not (failure and a null result are
treated identically by the code, which tests `SUCCEEDED(hr) && pszName != nullptr`). -/
structure ShellItem where
  fileSysPath : Option String
  deriving DecidableEq, Repr

/-- An `IShellItemArray` as the code observes it: `GetCount` either fails
(`none`) or yields a count, and `GetItemAt(0)` either fails (`none`) or
yields the first item. -/
structure ShellItemArray where
  getCount : Option Nat
  getItemAt0 : Option ShellItem
  deriving DecidableEq, Repr

/-- One registry scope (HKLM or HKCU) restricted to what the code touches:
whether `RegOpenKeyEx` on `SOFTWARE\DiskBench\ShellExtension` succeeds, and
the result of `RegQueryValueEx` for the string value `ExePath` (`none` =
the query fails or the value is absent). -/
structure RegScope where
  keyOpens : Bool
  exePathValue : Option String
  deriving DecidableEq, Repr

/-- The registry state visible to the component: the fixed key path in the
machine-wide and per-user scopes. -/
structure Registry where
  hklm : RegScope
  hkcu : RegScope
  deriving DecidableEq, Repr

/-- Embeds the `EXPCMDSTATE` values the code emits. -/
inductive CmdState where
  | ENABLED
  | HIDDEN
  deriving DecidableEq, Repr

/-- Embeds `towupper` as applied to the drive letter; on the ASCII range relevant
here it is exactly ASCII uppercasing. -/
def towupper (c : Char) : Char := c.toUpper

/-- A convenient concrete selection: one item whose filesystem display path
is `p`, with `GetCount` and `GetItemAt(0)` succeeding. -/
def singleItemSel (p : String) : ShellItemArray :=
  { getCount := some 1, getItemAt0 := some { fileSysPath := some p } }

namespace DiskBenchExt

/-- Embeds `ExplorerCommand::GetSelectedDrivePath` from
`src/DiskBench.ShellExtension.Cpp/ExplorerCommand.cpp` (lines 251-296).
The caller's output buffer starts zeroed; the returned string is what the
buffer holds on return (`""` = nothing written).  The callers always pass a
valid buffer, so the `pszPath == nullptr || cchPath == 0` guard is not
reachable through them; the null-array guard is kept. -/
def GetSelectedDrivePath (psiItemArray : Option ShellItemArray) : HResult × String :=
  match psiItemArray with
  | none => (.E_INVALIDARG, "")
  | some arr =>
    match arr.getCount with
    | none => (.S_FALSE, "")
    | some count =>
      if count = 0 then (.S_FALSE, "")
      else
        match arr.getItemAt0 with
        | none => (.E_FAIL, "")
        | some psi =>
          match psi.fileSysPath with
          | none => (.S_FALSE, "")
          | some name =>
            let cs := name.data
            if 2 ≤ cs.length ∧ cs.getD 1 ' ' = ':' then
              if cs.length = 2 ∨ (cs.length = 3 ∧ (cs.getD 2 ' ' = '\\' ∨ cs.getD 2 ' ' = '/')) then
                (.S_OK, String.mk [towupper (cs.getD 0 ' '), ':', '\\'])
              else (.S_FALSE, "")
            else (.S_FALSE, "")

/-- Embeds `ExplorerCommand::ReadExePathFromRegistry` (lines 306-340): open the key
under HKLM; on failure open the same path under HKCU; if neither opens,
fail.  Then query the `ExePath` string value from whichever key opened. -/
def ReadExePathFromRegistry (reg : Registry) : HResult × String :=
  let openedScope : Option RegScope :=
    if reg.hklm.keyOpens then some reg.hklm
    else if reg.hkcu.keyOpens then some reg.hkcu
    else none
  match openedScope with
  | none => (.E_FAIL, "")
  | some sc =>
    match sc.exePathValue with
    | none => (.E_FAIL, "")
    | some v => (.S_OK, v)

/-- Embeds `ExplorerCommand::GetExePath` (lines 298-304); the buffer-validity guard
is not reachable from the callers, which pass stack arrays. -/
def GetExePath (reg : Registry) : HResult × String :=
  ReadExePathFromRegistry reg

/-- Embeds `ExplorerCommand::GetState` (lines 150-181).  `pCmdStateValid` models
`pCmdState != nullptr`; the second component is what is written to
`*pCmdState` (`none` = nothing written).  `fOkToBeSlow` is ignored by the
code and omitted. -/
def GetState (psiItemArray : Option ShellItemArray) (pCmdStateValid : Bool) :
    HResult × Option CmdState :=
  if pCmdStateValid = false then (.E_POINTER, none)
  else
    match psiItemArray with
    | none => (.S_OK, some .HIDDEN)
    | some _ =>
      let r := GetSelectedDrivePath psiItemArray
      if r.1.succeeded = true ∧ 0 < r.2.length then (.S_OK, some .ENABLED)
      else (.S_OK, some .HIDDEN)

/-- The pair `CreateProcess` receives: its `lpApplicationName` and
`lpCommandLine` arguments. -/
structure LaunchCall where
  applicationName : String
  commandLine : String
  deriving DecidableEq, Repr

/-- The environment of `Invoke` that is outside the component: whether
`CreateProcess` succeeds on a given application name and command line. -/
structure ProcessEnv where
  createProcessSucceeds : String → String → Bool

/-- Embeds `ExplorerCommand::Invoke` (lines 183-224).  The second component records
the `CreateProcess` call that was attempted (`none` = the launch step was
never reached).  `pbc` is ignored by the code and omitted. -/
def Invoke (env : ProcessEnv) (reg : Registry) (psiItemArray : Option ShellItemArray) :
    HResult × Option LaunchCall :=
  match psiItemArray with
  | none => (.E_POINTER, none)
  | some _ =>
    let r := GetSelectedDrivePath psiItemArray
    if r.1.failed = true ∨ r.2.length = 0 then (.S_FALSE, none)
    else
      let e := GetExePath reg
      if e.1.failed = true then (.E_FAIL, none)
      else
        let cmdLine := "\"" ++ e.2 ++ "\" --quick \"" ++ r.2 ++ "\""
        if env.createProcessSucceeds e.2 cmdLine then (.S_OK, some ⟨e.2, cmdLine⟩)
        else (.E_FAIL, some ⟨e.2, cmdLine⟩)

/-- The module environment `GetIcon` consults: the host module path of the
extension DLL (`none` when `g_hInstance` is null or `GetModuleFileNameW`
fails or truncates), and whether `CoTaskMemAlloc` succeeds. -/
structure ModuleEnv where
  moduleFileName : Option String
  allocOk : Bool

/-- Embeds `ExplorerCommand::GetIcon` (lines 80-117).  `ppszIconValid` models
`ppszIcon != nullptr`; the second component is what is written to
`*ppszIcon`: `none` = nothing written, `some none` = null written,
`some (some s)` = the string `s` written.  `psiItemArray` is ignored by the
code and omitted. -/
def GetIcon (reg : Registry) (env : ModuleEnv) (ppszIconValid : Bool) :
    HResult × Option (Option String) :=
  if ppszIconValid = false then (.E_POINTER, none)
  else
    let hasExePath := (GetExePath reg).1.succeeded
    let iconPath : Option String :=
      if hasExePath then some (GetExePath reg).2 else env.moduleFileName
    match iconPath with
    | none => (.S_FALSE, some none)
    | some p =>
      if env.allocOk then (.S_OK, some (some (p ++ ",0")))
      else (.E_OUTOFMEMORY, none)

end DiskBenchExt

namespace DiskBenchCopy

/-- Embeds `ExplorerCommand::GetSelectedDrivePath` from
`src/DiskBench/DiskBench.ShellExtension.Cpp/ExplorerCommand.cpp`
(lines 215-247): accepts only an exact 2-character `<char>:` path and copies
it verbatim (no normalization). -/
def GetSelectedDrivePath (psiItemArray : Option ShellItemArray) : HResult × String :=
  match psiItemArray with
  | none => (.E_INVALIDARG, "")
  | some arr =>
    match arr.getCount with
    | none => (.S_FALSE, "")
    | some count =>
      if count = 0 then (.S_FALSE, "")
      else
        match arr.getItemAt0 with
        | none => (.E_FAIL, "")
        | some psi =>
          match psi.fileSysPath with
          | none => (.S_FALSE, "")
          | some name =>
            if name.data.length = 2 ∧ name.data.getD 1 ' ' = ':' then
              (.S_OK, name)
            else (.S_FALSE, "")

/-- Embeds `ExplorerCommand::ReadExePathFromRegistry` from
`src/DiskBench/DiskBench.ShellExtension.Cpp/ExplorerCommand.cpp`
(lines 257-281): opens the key under HKLM only; if that open fails, the
function fails without consulting HKCU. -/
def ReadExePathFromRegistry (reg : Registry) : HResult × String :=
  if reg.hklm.keyOpens then
    match reg.hklm.exePathValue with
    | none => (.E_FAIL, "")
    | some v => (.S_OK, v)
  else (.E_FAIL, "")

end DiskBenchCopy

namespace DiskBenchExt

/-- The lifecycle-relevant state of one `ExplorerCommand` instance:
`m_refCount` (a signed LONG) together with how many times `delete this` has
executed — `destroyCount` lets "destroyed exactly once" be stated. -/
structure ObjState where
  refCount : Int
  destroyCount : Nat
  deriving DecidableEq, Repr

/-- Embeds `ExplorerCommand::ExplorerCommand` (lines 18-22): `m_refCount(1)`. -/
def ObjState.construct : ObjState := { refCount := 1, destroyCount := 0 }

/-- Embeds `ExplorerCommand::AddRef` (lines 47-50): `InterlockedIncrement` and
return the new value. -/
def AddRef (s : ObjState) : ObjState × Int :=
  ({ s with refCount := s.refCount + 1 }, s.refCount + 1)

/-- Embeds `ExplorerCommand::Release` (lines 52-58): `InterlockedDecrement`; if the
new value is zero, `delete this`; return the new value. -/
def Release (s : ObjState) : ObjState × Int :=
  let r := s.refCount - 1
  if r = 0 then ({ refCount := r, destroyCount := s.destroyCount + 1 }, r)
  else ({ refCount := r, destroyCount := s.destroyCount }, r)

/-- The interface ids the code compares against. -/
inductive IID where
  | IUnknown
  | IExplorerCommand
  | IClassFactory
  | other (code : Nat)
  deriving DecidableEq, Repr

/-- What gets written to an interface out-pointer. -/
inductive PtrVal where
  | toObject
  | nullPtr
  deriving DecidableEq, Repr

/-- Embeds `ExplorerCommand::QueryInterface` (lines 31-45): for `IID_IUnknown` or
`IID_IExplorerCommand`, write the object pointer, `AddRef`, return `S_OK`;
otherwise write null and return `E_NOINTERFACE`.  `ppvValid` models
`ppv != nullptr`; the third component is what is written to `*ppv`. -/
def QueryInterface (s : ObjState) (riid : IID) (ppvValid : Bool) :
    ObjState × HResult × Option PtrVal :=
  if ppvValid = false then (s, .E_POINTER, none)
  else if riid = .IUnknown ∨ riid = .IExplorerCommand then
    ((AddRef s).1, .S_OK, some .toObject)
  else (s, .E_NOINTERFACE, some .nullPtr)

/-- Result of `ClassFactory::CreateInstance`: the returned HRESULT, what was
written to `*ppv`, and the final state of the `ExplorerCommand` instance it
constructed (`none` = no instance was ever constructed). -/
structure CreateInstanceResult where
  hr : HResult
  ppv : Option PtrVal
  obj : Option ObjState
  deriving DecidableEq, Repr

/-- Embeds `ClassFactory::CreateInstance` from
`src/DiskBench.ShellExtension.Cpp/dllmain.cpp` (lines 43-60):
null `ppv` → `E_POINTER`; non-null aggregating outer → `*ppv = nullptr`,
`CLASS_E_NOAGGREGATION`; allocation failure → `E_OUTOFMEMORY`; otherwise
construct an `ExplorerCommand`, `QueryInterface` the requested id into
`ppv`, `Release` the factory's own reference, and return the query's
result. -/
def CreateInstance (ppvValid pUnkOuterNull allocOk : Bool) (riid : IID) :
    CreateInstanceResult :=
  if ppvValid = false then { hr := .E_POINTER, ppv := none, obj := none }
  else if pUnkOuterNull = false then
    { hr := .CLASS_E_NOAGGREGATION, ppv := some .nullPtr, obj := none }
  else if allocOk = false then
    { hr := .E_OUTOFMEMORY, ppv := some .nullPtr, obj := none }
  else
    let q := QueryInterface ObjState.construct riid true
    let s2 := (Release q.1).1
    { hr := q.2.1, ppv := q.2.2, obj := some s2 }

end DiskBenchExt

section Claims

open DiskBenchExt

/-- C1: every selection whose first item's filesystem path has `:` as its
second character and is either exactly 2 characters or exactly 3 characters
ending in `\` or `/` is accepted by `GetSelectedDrivePath`
(src/DiskBench.ShellExtension.Cpp), which returns `S_OK` and the normalized
3-character token: the uppercased drive letter, `:`, `\`. -/
theorem claim_C1 (arr : ShellItemArray) (c : Nat) (item : ShellItem) (p : String)
    (hc : arr.getCount = some c) (hcpos : 0 < c)
    (hi : arr.getItemAt0 = some item) (hp : item.fileSysPath = some p)
    (hcolon : p.data.getD 1 ' ' = ':')
    (hshape : p.data.length = 2 ∨
      (p.data.length = 3 ∧ (p.data.getD 2 ' ' = '\\' ∨ p.data.getD 2 ' ' = '/'))) :
    GetSelectedDrivePath (some arr) =
      (.S_OK, String.mk [towupper (p.data.getD 0 ' '), ':', '\\']) := by
  have hlen : 2 ≤ p.data.length := by rcases hshape with h | h <;> omega
  simp only [GetSelectedDrivePath, hc, hi, hp]
  rw [if_neg (by omega), if_pos ⟨hlen, hcolon⟩, if_pos hshape]

/-- Witness for C1 at the concrete selection `["c:/"]`, which yields the
token `"C:\"`. -/
theorem claim_C1_witness :
    GetSelectedDrivePath (some (singleItemSel "c:/")) = (.S_OK, "C:\\") := by
  rw [claim_C1 (singleItemSel "c:/") 1 { fileSysPath := some "c:/" } "c:/"
    rfl (by decide) rfl rfl (by decide) (by decide)]
  decide

/-- C7: every selection whose first item's filesystem path is longer than 3
characters, or whose second character is not `:`, is rejected by
`GetSelectedDrivePath` (src/DiskBench.ShellExtension.Cpp) with the
not-a-drive outcome `S_FALSE` and no token written. -/
theorem claim_C7 (arr : ShellItemArray) (c : Nat) (item : ShellItem) (p : String)
    (hc : arr.getCount = some c) (hcpos : 0 < c)
    (hi : arr.getItemAt0 = some item) (hp : item.fileSysPath = some p)
    (hbad : 3 < p.data.length ∨ p.data.getD 1 ' ' ≠ ':') :
    GetSelectedDrivePath (some arr) = (.S_FALSE, "") := by
  simp only [GetSelectedDrivePath, hc, hi, hp]
  rw [if_neg (by omega)]
  by_cases hcolon : p.data.getD 1 ' ' = ':'
  · have hlong : 3 < p.data.length := by tauto
    rw [if_pos ⟨by omega, hcolon⟩, if_neg (by omega)]
  · rw [if_neg (by tauto)]

/-- Witness for C7 at the concrete selection `["D:\Projects"]`: a folder
inside a drive is rejected. -/
theorem claim_C7_witness :
    GetSelectedDrivePath (some (singleItemSel "D:\\Projects")) = (.S_FALSE, "") :=
  claim_C7 (singleItemSel "D:\\Projects") 1 { fileSysPath := some "D:\\Projects" }
    "D:\\Projects" rfl (by decide) rfl rfl (by decide)

/-- C5: with a non-null state output, `GetState` always reports `S_OK` and
always emits one of the two states; a null selection handle emits `HIDDEN`;
a zero-item selection emits `HIDDEN`; and `ENABLED` is emitted exactly when
the validator succeeds with a non-empty drive token (every other case,
including internal helper failures, emits `HIDDEN`). -/
theorem claim_C5 (sel : Option ShellItemArray) :
    (GetState sel true).1 = .S_OK ∧
    ((GetState sel true).2 = some .ENABLED ∨ (GetState sel true).2 = some .HIDDEN) ∧
    (sel = none → (GetState sel true).2 = some .HIDDEN) ∧
    (∀ arr, sel = some arr → arr.getCount = some 0 →
      (GetState sel true).2 = some .HIDDEN) ∧
    ((GetState sel true).2 = some .ENABLED ↔
      (GetSelectedDrivePath sel).1.succeeded = true ∧
        0 < (GetSelectedDrivePath sel).2.length) := by
  cases sel with
  | none =>
    refine ⟨rfl, Or.inr rfl, fun _ => rfl, ?_, ?_⟩
    · intro arr h
      cases h
    · simp [GetState, GetSelectedDrivePath, HResult.succeeded]
  | some arr =>
    by_cases hC : (GetSelectedDrivePath (some arr)).1.succeeded = true ∧
        0 < (GetSelectedDrivePath (some arr)).2.length
    · have hG : GetState (some arr) true = (.S_OK, some .ENABLED) := by
        simp only [GetState]
        rw [if_neg (by simp), if_pos hC]
      refine ⟨by rw [hG], Or.inl (by rw [hG]), ?_, ?_, ?_⟩
      · intro h
        cases h
      · intro arr2 harr h0
        injection harr with harr
        subst harr
        have hz : GetSelectedDrivePath (some arr) = (.S_FALSE, "") := by
          simp [GetSelectedDrivePath, h0]
        rw [hz] at hC
        exact absurd hC.2 (by simp)
      · rw [hG]
        simp [hC]
    · have hG : GetState (some arr) true = (.S_OK, some .HIDDEN) := by
        simp only [GetState]
        rw [if_neg (by simp), if_neg hC]
      refine ⟨by rw [hG], Or.inr (by rw [hG]), ?_, ?_, ?_⟩
      · intro h
        cases h
      · intro arr2 harr h0
        rw [hG]
      · rw [hG]
        simp only [hC, iff_false]
        intro h
        cases h

/-- Witness for C5 at the null selection handle: the call succeeds and the
emitted state is `HIDDEN`. -/
theorem claim_C5_witness :
    (GetState none true).1 = .S_OK ∧ (GetState none true).2 = some .HIDDEN :=
  ⟨(claim_C5 none).1, (claim_C5 none).2.2.1 rfl⟩

/-- C2: on a selection the validator accepts, when both registry scopes fail
to open, `Invoke` returns the hard failure `E_FAIL` (distinct from the
not-handled `S_FALSE`) and `CreateProcess` is never called; and in general
the launch step is reached only when both the validator and the config
resolver have succeeded. -/
theorem claim_C2 :
    (∀ (env : ProcessEnv) (reg : Registry) (arr : ShellItemArray),
      reg.hklm.keyOpens = false → reg.hkcu.keyOpens = false →
      (GetSelectedDrivePath (some arr)).1.succeeded = true →
      0 < (GetSelectedDrivePath (some arr)).2.length →
      Invoke env reg (some arr) = (.E_FAIL, none)) ∧
    HResult.E_FAIL ≠ HResult.S_FALSE ∧
    (∀ (env : ProcessEnv) (reg : Registry) (sel : Option ShellItemArray)
        (hr : HResult) (call : LaunchCall),
      Invoke env reg sel = (hr, some call) →
      (GetSelectedDrivePath sel).1.succeeded = true ∧
      0 < (GetSelectedDrivePath sel).2.length ∧
      (GetExePath reg).1.succeeded = true) := by
  refine ⟨?_, by decide, ?_⟩
  · intro env reg arr hm hu hok hlen
    have he : GetExePath reg = (.E_FAIL, "") := by
      simp only [GetExePath, ReadExePathFromRegistry, hm, hu]
      rfl
    simp only [Invoke]
    rw [if_neg (by simp [HResult.failed, hok]; omega), he]
    rw [if_pos (by decide)]
  · intro env reg sel hr call h
    cases sel with
    | none => exact absurd (congrArg Prod.snd h) (by simp [Invoke])
    | some arr =>
      simp only [Invoke] at h
      by_cases h1 : (GetSelectedDrivePath (some arr)).1.failed = true ∨
          (GetSelectedDrivePath (some arr)).2.length = 0
      · rw [if_pos h1] at h
        exact absurd (congrArg Prod.snd h) (by simp)
      · rw [if_neg h1] at h
        push_neg at h1
        obtain ⟨hf, hl⟩ := h1
        refine ⟨?_, by omega, ?_⟩
        · revert hf
          simp [HResult.failed]
        · by_cases h2 : (GetExePath reg).1.failed = true
          · rw [if_pos h2] at h
            exact absurd (congrArg Prod.snd h) (by simp)
          · revert h2
            simp [HResult.failed]

/-- Witness for C2 at the selection `["D:\"]` with both registry scopes
absent: `Invoke` is the hard failure and no launch is attempted. -/
theorem claim_C2_witness :
    Invoke { createProcessSucceeds := fun _ _ => true }
      { hklm := { keyOpens := false, exePathValue := none },
        hkcu := { keyOpens := false, exePathValue := none } }
      (some (singleItemSel "D:\\")) = (.E_FAIL, none) :=
  claim_C2.1 { createProcessSucceeds := fun _ _ => true } _ _
    rfl rfl (by decide) (by decide)

/-- C6: whenever the validator yields token `T` and the config resolver
yields tool path `P`, the command line handed to `CreateProcess` is exactly
`"P" --quick "T"` — both arguments double-quoted, the single fixed flag, and
nothing else — with `P` as the application name. -/
theorem claim_C6 (env : ProcessEnv) (reg : Registry) (sel : Option ShellItemArray)
    (T P : String)
    (hv : GetSelectedDrivePath sel = (.S_OK, T)) (hT : 0 < T.length)
    (he : GetExePath reg = (.S_OK, P)) :
    ∃ hr : HResult,
      Invoke env reg sel =
        (hr, some { applicationName := P,
                    commandLine := "\"" ++ P ++ "\" --quick \"" ++ T ++ "\"" }) := by
  cases sel with
  | none => simp [GetSelectedDrivePath] at hv
  | some arr =>
    simp only [Invoke, hv, he]
    rw [if_neg (by simp [HResult.failed, HResult.succeeded]; omega)]
    rw [if_neg (by simp [HResult.failed, HResult.succeeded])]
    by_cases hcp : env.createProcessSucceeds P
        ("\"" ++ P ++ "\" --quick \"" ++ T ++ "\"") = true
    · exact ⟨.S_OK, by rw [if_pos hcp]⟩
    · exact ⟨.E_FAIL, by rw [if_neg hcp]⟩

/-- Witness for C6 at the selection `["c:/"]` and tool path
`C:\Tools\DiskBench.exe` resolved from HKLM. -/
theorem claim_C6_witness :
    ∃ hr : HResult,
      Invoke { createProcessSucceeds := fun _ _ => true }
        { hklm := { keyOpens := true, exePathValue := some "C:\\Tools\\DiskBench.exe" },
          hkcu := { keyOpens := false, exePathValue := none } }
        (some (singleItemSel "c:/")) =
        (hr, some { applicationName := "C:\\Tools\\DiskBench.exe",
                    commandLine := "\"C:\\Tools\\DiskBench.exe\" --quick \"C:\\\"" }) :=
  claim_C6 { createProcessSucceeds := fun _ _ => true } _ _ "C:\\"
    "C:\\Tools\\DiskBench.exe" (by decide) (by decide) rfl

/-- C8: with a non-null output pointer and allocation succeeding, `GetIcon`
writes the resolved tool path suffixed with `,0` when the config resolver
succeeds; falls back to the host-module path suffixed with `,0` when it
fails but the module path is obtainable; and when neither is available
returns `S_FALSE` (a success code, distinct from an error) with a null
output written. -/
theorem claim_C8 (reg : Registry) (env : ModuleEnv) (halloc : env.allocOk = true) :
    ((GetExePath reg).1.succeeded = true →
      GetIcon reg env true = (.S_OK, some (some ((GetExePath reg).2 ++ ",0")))) ∧
    ((GetExePath reg).1.succeeded = false → ∀ M, env.moduleFileName = some M →
      GetIcon reg env true = (.S_OK, some (some (M ++ ",0")))) ∧
    ((GetExePath reg).1.succeeded = false → env.moduleFileName = none →
      GetIcon reg env true = (.S_FALSE, some none)) ∧
    HResult.succeeded .S_FALSE = true := by
  refine ⟨?_, ?_, ?_, rfl⟩
  · intro hok
    simp [GetIcon, hok, halloc]
  · intro hbad M hM
    simp [GetIcon, hbad, hM, halloc]
  · intro hbad hM
    simp [GetIcon, hbad, hM]

/-- Witness for C8: with the tool path resolved from HKLM the icon source is
that path with index 0, and with nothing resolvable and no module path the
outcome is no-icon with a null write. -/
theorem claim_C8_witness :
    GetIcon { hklm := { keyOpens := true, exePathValue := some "C:\\T\\d.exe" },
              hkcu := { keyOpens := false, exePathValue := none } }
        { moduleFileName := some "C:\\ext.dll", allocOk := true } true =
      (.S_OK, some (some "C:\\T\\d.exe,0")) ∧
    GetIcon { hklm := { keyOpens := false, exePathValue := none },
              hkcu := { keyOpens := false, exePathValue := none } }
        { moduleFileName := none, allocOk := true } true =
      (.S_FALSE, some none) :=
  ⟨(claim_C8
      { hklm := { keyOpens := true, exePathValue := some "C:\\T\\d.exe" },
        hkcu := { keyOpens := false, exePathValue := none } }
      { moduleFileName := some "C:\\ext.dll", allocOk := true } rfl).1 rfl,
   (claim_C8
      { hklm := { keyOpens := false, exePathValue := none },
        hkcu := { keyOpens := false, exePathValue := none } }
      { moduleFileName := none, allocOk := true } rfl).2.2.1 rfl rfl⟩

end Claims

/-- Acceptance shape of the permissive validator as the spec words it
(§4.4): second character `:`, and either exactly 2 characters or exactly 3
characters with a trailing path separator.  Spec-side definition for the
refinement claim C9. -/
def specPermissiveDriveShape (p : String) : Prop :=
  p.data.getD 1 ' ' = ':' ∧
    (p.data.length = 2 ∨
      (p.data.length = 3 ∧ (p.data.getD 2 ' ' = '\\' ∨ p.data.getD 2 ' ' = '/')))

/-- Acceptance shape of the strict validator as the spec words it: only the
exact 2-character `<char>:` form.  Spec-side definition for the refinement
claim C9. -/
def specStrictDriveShape (p : String) : Prop :=
  p.data.length = 2 ∧ p.data.getD 1 ' ' = ':'

section Claims2

open DiskBenchExt in
/-- C9: the two validator copies are not equivalent — on a single-item
selection the copy in src/DiskBench.ShellExtension.Cpp accepts exactly the
permissive shapes (bare `<char>:` and separator-terminated 3-character
forms) while the copy in src/DiskBench/DiskBench.ShellExtension.Cpp accepts
exactly the bare 2-character form, and the concrete input `"C:\"` is
accepted by the former and rejected by the latter. -/
theorem claim_C9 :
    (∀ p : String,
      ((DiskBenchExt.GetSelectedDrivePath (some (singleItemSel p))).1 = .S_OK ↔
        specPermissiveDriveShape p) ∧
      ((DiskBenchCopy.GetSelectedDrivePath (some (singleItemSel p))).1 = .S_OK ↔
        specStrictDriveShape p)) ∧
    (DiskBenchExt.GetSelectedDrivePath (some (singleItemSel "C:\\"))).1 = .S_OK ∧
    (DiskBenchCopy.GetSelectedDrivePath (some (singleItemSel "C:\\"))).1 = .S_FALSE := by
  refine ⟨?_, by decide, by decide⟩
  intro p
  constructor
  · simp only [DiskBenchExt.GetSelectedDrivePath, singleItemSel,
      specPermissiveDriveShape]
    rw [if_neg (by omega)]
    by_cases h1 : 2 ≤ p.data.length ∧ p.data.getD 1 ' ' = ':'
    · rw [if_pos h1]
      by_cases h2 : p.data.length = 2 ∨
          (p.data.length = 3 ∧ (p.data.getD 2 ' ' = '\\' ∨ p.data.getD 2 ' ' = '/'))
      · rw [if_pos h2]
        simp only [true_iff]
        exact ⟨h1.2, h2⟩
      · rw [if_neg h2]
        constructor
        · intro hcon
          exact absurd hcon (by decide)
        · intro hcon
          exact absurd hcon.2 h2
    · rw [if_neg h1]
      constructor
      · intro hcon
        cases hcon
      · intro hcon
        exact absurd ⟨by omega, hcon.1⟩ h1
  · simp only [DiskBenchCopy.GetSelectedDrivePath, singleItemSel,
      specStrictDriveShape]
    rw [if_neg (by omega)]
    by_cases h1 : p.data.length = 2 ∧ p.data.getD 1 ' ' = ':'
    · rw [if_pos h1]
      exact iff_of_true rfl h1
    · rw [if_neg h1]
      constructor
      · intro hcon
        cases hcon
      · intro hcon
        exact absurd hcon h1

end Claims2

namespace DiskBenchExt

end DiskBenchExt

section Claims3

open DiskBenchExt

/-- C10: a `CreateInstance` call with a null aggregating outer pointer and a
capability id other than `IUnknown` or `IExplorerCommand` returns the typed
not-supported code `E_NOINTERFACE`, writes a null output pointer, and leaves
the freshly constructed `ExplorerCommand` destroyed exactly once with its
count at zero (never below). -/
theorem claim_C10 (riid : IID) (h1 : riid ≠ .IUnknown) (h2 : riid ≠ .IExplorerCommand) :
    CreateInstance true true true riid =
      { hr := .E_NOINTERFACE, ppv := some .nullPtr,
        obj := some { refCount := 0, destroyCount := 1 } } := by
  have hq : QueryInterface ObjState.construct riid true =
      (ObjState.construct, .E_NOINTERFACE, some .nullPtr) := by
    simp only [QueryInterface]
    rw [if_neg (by simp), if_neg (by tauto)]
  simp only [CreateInstance, hq]
  rw [if_neg (by simp), if_neg (by simp), if_neg (by simp)]
  rfl

/-- Witness for C10 at the concrete foreign capability id `IClassFactory`. -/
theorem claim_C10_witness :
    CreateInstance true true true .IClassFactory =
      { hr := .E_NOINTERFACE, ppv := some .nullPtr,
        obj := some { refCount := 0, destroyCount := 1 } } :=
  claim_C10 .IClassFactory (by decide) (by decide)


/-- Witness for C9 at the concrete path `"C:"`, accepted by both validator
copies, evaluating the acceptance characterizations on a concrete input. -/
theorem claim_C9_witness :
    (DiskBenchExt.GetSelectedDrivePath (some (singleItemSel "C:"))).1 = .S_OK ∧
    (DiskBenchCopy.GetSelectedDrivePath (some (singleItemSel "C:"))).1 = .S_OK :=
  ⟨((claim_C9.1 "C:").1).mpr ⟨by decide, Or.inl (by decide)⟩,
   ((claim_C9.1 "C:").2).mpr ⟨by decide, by decide⟩⟩

end Claims3
